import Mathlib

/-!
Verification development for the replication-manager supervisory controller.

This file gives a shallow embedding, in Lean 4, of the parts of the Go code
that the checked specification sentences are about:

* the peer heartbeat / split-brain protocol of the supervisor
  (`HeartbeatPeerSplitBrain`, `Heartbeat` in the server package);
* the served heartbeat endpoint (`handlerMuxMonitorHeartbeat`) and the
  `Heartbeat` JSON structure;
* the per-cluster error/warning code dictionary (`clusterError`);
* the configuration merge of `GetClusterConfig` (immutable versus saved
  dynamic keys) and the alias registrations of `initAlias`;
* the proxy monitor refresh loop (`refreshProxies`).

Effectful Go operations (HTTP calls, map iteration, logging) are embedded by
explicit state passing: the outcome of a network exchange with a peer becomes
an input of type `PeerResult`, viper configuration sections become finite
key/value views, and Go maps become functions into `Option`.
-/

namespace RepMan

/-! ## Data model: heartbeat structures (server package)

`Heartbeat` mirrors the Go struct field for field, with the JSON tag names
kept alongside in `Heartbeat.encode` below.  Go `int` is embedded as `Int`,
Go `string` as `String`. -/

/-- Go constant `ConstMonitorActif = "A"`. -/
def ConstMonitorActif : String := "A"

/-- Go constant `ConstMonitorStandby = "S"`. -/
def ConstMonitorStandby : String := "S"

/-- The `Heartbeat` struct of the server package (fields in declaration
order: UUID, Secret, Cluster, Master, UID, Status, Hosts, Failed with JSON
tags uuid, secret, cluster, master, id, status, hosts, failed). -/
structure Heartbeat where
  UUID : String
  Secret : String
  Cluster : String
  Master : String
  UID : Int
  Status : String
  Hosts : Int
  Failed : Int
deriving Repr, DecidableEq

/-- Minimal JSON value universe: the `Heartbeat` struct only carries strings
and integers, and `encoding/json` has no omitempty tag on any field, so the
encoder always emits all eight fields. -/
inductive JValue where
  | str (s : String)
  | int (n : Int)
deriving Repr, DecidableEq

/-- The JSON object produced by `json.Encoder.Encode` on a `Heartbeat`
value: one field per struct field, in declaration order, named by the
struct tags. -/
def Heartbeat.encode (h : Heartbeat) : List (String × JValue) :=
  [ ("uuid", JValue.str h.UUID)
  , ("secret", JValue.str h.Secret)
  , ("cluster", JValue.str h.Cluster)
  , ("master", JValue.str h.Master)
  , ("id", JValue.int h.UID)
  , ("status", JValue.str h.Status)
  , ("hosts", JValue.int h.Hosts)
  , ("failed", JValue.int h.Failed) ]

/-! ## Supervisor state

Only the fields of `ReplicationManager` and `config.Config` that the
embedded functions read or write are carried. -/

/-- The slice of `config.Config` used by the heartbeat code and the served
endpoint. -/
structure Config where
  ArbitrationPeerHosts : String
  Arbitration : Bool
  MonitoringTicker : Int
  ArbitrationSasUniqueId : Int
  ArbitrationSasSecret : String
deriving Repr, DecidableEq

/-- The slice of `cluster.Cluster` that `Heartbeat()` touches: the cluster
name and its `IsSplitBrain` field.  `Master` records the current primary of
the cluster; the supervisor heartbeat code never reads it, which is exactly
what the split-brain claims are about. -/
structure ClusterSt where
  Name : String
  Master : String
  IsSplitBrain : Bool
deriving Repr, DecidableEq

/-- The slice of `ReplicationManager` used by `Heartbeat()`,
`HeartbeatPeerSplitBrain` and `handlerMuxMonitorHeartbeat`. -/
structure Repman where
  Conf : Config
  SplitBrain : Bool
  Status : String
  UUID : String
  Clusters : List ClusterSt
deriving Repr, DecidableEq

/-- Outcome of the HTTP exchange `GET http://peer/api/heartbeat` performed
inside `HeartbeatPeerSplitBrain`, one constructor per exit path of the Go
function: request construction error, transport error from `client.Do`,
body read error from `ioutil.ReadAll`, `json.Unmarshal` error, or a reply
that parsed into a `Heartbeat` value. -/
inductive PeerResult where
  | reqError
  | doError
  | readError
  | unmarshalError
  | ok (h : Heartbeat)
deriving Repr, DecidableEq

/-- True exactly on the four failure constructors of `PeerResult`. -/
def PeerResult.isFailure : PeerResult → Bool
  | .ok _ => false
  | _ => true

/-- Two-complement wrap of an integer into the value range of Go `int64`,
used where Go `time.Duration` arithmetic can overflow. -/
def int64wrap (n : Int) : Int := (n + 2 ^ 63) % 2 ^ 64 - 2 ^ 63

/-- The HTTP client timeout computed at the top of
`HeartbeatPeerSplitBrain`:
`time.Duration(time.Duration(repman.Conf.MonitoringTicker) * time.Second * 4)`,
i.e. the tick period in seconds converted to nanoseconds and multiplied by
four, in `int64` arithmetic. -/
def heartbeatPeerClientTimeout (monitoringTicker : Int) : Int :=
  int64wrap (int64wrap (monitoringTicker * 1000000000) * 4)

/-- `ReplicationManager.HeartbeatPeerSplitBrain` (server package).

The function builds a request, sends it, reads and unmarshals the body,
returning `true` on each of the four failure paths; when the body
unmarshals into a `Heartbeat` it only logs and returns `false` — nothing in
the reply (cluster, master, status) is inspected.  The network exchange is
abstracted into the `r : PeerResult` input; `bcksplitbrain` is the second Go
parameter (used only to throttle logging, never for the result). -/
def HeartbeatPeerSplitBrain (r : PeerResult) (bcksplitbrain : Bool) : Bool :=
  match r with
  | .reqError => true
  | .doError => true
  | .readError => true
  | .unmarshalError => true
  | .ok _ =>
    -- the Go code logs the parsed value and falls through
    let _ := bcksplitbrain
    false

/-- Character-list worker for `goSplitComma`: groups a character list into
the comma-separated segments, Go `strings.Split` style (always at least one
segment; an empty input gives one empty segment). -/
def splitCommaAux : List Char → List (List Char)
  | [] => [[]]
  | c :: rest =>
    match splitCommaAux rest with
    | [] => [[]]
    | g :: gs => if c = ',' then [] :: g :: gs else (c :: g) :: gs

/-- Go `strings.Split(s, ",")` as used on `ArbitrationPeerHosts`. -/
def goSplitComma (s : String) : List String :=
  (splitCommaAux s.data).map (fun l => { data := l })

/-- `ReplicationManager.Heartbeat` (server package).

`cfgGroup` is the package-level configuration group ("arbitrator" makes the
function return immediately).  `peerResult` gives, for each peer address,
the outcome of the HTTP exchange of that tick.  The Go function:
exits early for the arbitrator group; with empty
`ArbitrationPeerHosts` it sets `Conf.Arbitration = false` and returns;
otherwise it splits the host list on commas, snapshots `bcksplitbrain`,
overwrites `SplitBrain` with the result of `HeartbeatPeerSplitBrain` for
each peer in turn, and finally copies the resulting `SplitBrain` into the
`IsSplitBrain` field of every cluster. -/
def Heartbeat.run (cfgGroup : String) (peerResult : String → PeerResult)
    (r : Repman) : Repman :=
  if cfgGroup = "arbitrator" then r
  else if r.Conf.ArbitrationPeerHosts ≠ "" then
    let peerList := goSplitComma r.Conf.ArbitrationPeerHosts
    let bck := r.SplitBrain
    let r1 := peerList.foldl
      (fun acc peer =>
        { acc with SplitBrain := HeartbeatPeerSplitBrain (peerResult peer) bck })
      r
    { r1 with
        Clusters := r1.Clusters.map (fun cl => { cl with IsSplitBrain := r1.SplitBrain }) }
  else
    { r with Conf := { r.Conf with Arbitration := false } }

/-- The initialisation of `repman.Status` in `ReplicationManager.Run`:
standby when arbitration is configured, active otherwise. -/
def runStatusInit (arbitration : Bool) : String :=
  if arbitration then ConstMonitorStandby else ConstMonitorActif

/-- `ReplicationManager.handlerMuxMonitorHeartbeat` (api.go): starts from
the zero `Heartbeat` value and fills UUID, UID, Secret and Status from the
supervisor state before JSON-encoding it. -/
def handlerMuxMonitorHeartbeat (r : Repman) : Heartbeat :=
  { UUID := r.UUID
  , Secret := r.Conf.ArbitrationSasSecret
  , Cluster := ""
  , Master := ""
  , UID := r.Conf.ArbitrationSasUniqueId
  , Status := r.Status
  , Hosts := 0
  , Failed := 0 }

/-! ## Configuration merge (`GetClusterConfig`) and aliases (`initAlias`)

Go maps `map[string]interface{}` are embedded as functions
`String → Option V` for an arbitrary value type `V` with decidable
equality (Go compares `interface{}` values with `!=`).  A viper
configuration section (`fistRead.Sub(...)`) is embedded as a `Vip`:
the key list returned by `AllKeys()` together with the `Get` view;
`Set` overrides the value of a key. -/

/-- Go map `map[string]interface{}`. -/
def GoMap (V : Type) : Type := String → Option V

/-- Go map assignment `m[k] = v`. -/
def goInsert {V : Type} (m : GoMap V) (k : String) (v : V) : GoMap V :=
  fun q => if q = k then some v else m q

/-- A viper configuration section: `AllKeys()` and `Get`. -/
structure Vip (V : Type) where
  keys : List String
  get : String → Option V

/-- `viper.Set`: overrides the value stored under a key (the key is listed
by `AllKeys()` afterwards). -/
def Vip.set {V : Type} (cf : Vip V) (k : String) (v : V) : Vip V :=
  { keys := if k ∈ cf.keys then cf.keys else cf.keys ++ [k]
  , get := fun q => if q = k then some v else cf.get q }

/-- First loop over the saved section in `GetClusterConfig`:
`for f in cf3.AllKeys() { if v, ok := clustImmuableMap[f]; ok { cf3.Set(f, v) } }` —
every saved key that is present in the immutable flag map has its value
replaced by the immutable value. -/
def savedReplaceImmutable {V : Type} (imm : GoMap V) (cf3 : Vip V) : Vip V :=
  cf3.keys.foldl
    (fun acc f => match imm f with
      | some v => acc.set f v
      | none => acc)
    cf3

/-- `cf.Unmarshal(&clusterconf)`: every key of the section overwrites the
corresponding effective-configuration entry (the effective `config.Config`
struct is viewed as a key/value map). -/
def vipUnmarshal {V : Type} (cf : Vip V) (conf : GoMap V) : GoMap V :=
  cf.keys.foldl
    (fun acc f => match cf.get f with
      | some v => goInsert acc f v
      | none => acc)
    conf

/-- Second loop over the saved section in `GetClusterConfig`: a key enters
the cluster dynamic flag map when its (possibly replaced) value is non-nil
and either the key is absent from the immutable map or its value differs
from the immutable value. -/
def savedDynamicUpdate {V : Type} [DecidableEq V] (imm : GoMap V) (cf3 : Vip V)
    (dyn : GoMap V) : GoMap V :=
  cf3.keys.foldl
    (fun acc f => match cf3.get f with
      | some v => match imm f with
        | some immv => if immv ≠ v then goInsert acc f v else acc
        | none => goInsert acc f v
      | none => acc)
    dyn

/-- The insertion condition of `savedDynamicUpdate` at one key: the key
has a value in the section and is either absent from the immutable map, or
carries a value different from the immutable one. -/
def dynTriggers {V : Type} [DecidableEq V] (imm : GoMap V) (cf3 : Vip V)
    (k : String) : Bool :=
  match cf3.get k with
  | some v => match imm k with
    | some w => decide (w ≠ v)
    | none => true
  | none => false

/-- Result of `GetClusterConfig`: the cluster immutable flag map, the
cluster dynamic flag map, and the returned `clusterconf`. -/
structure ClusterConfigResult (V : Type) where
  clustImmuableMap : GoMap V
  clustDynamicMap : GoMap V
  clusterconf : GoMap V

/-- `ReplicationManager.GetClusterConfig`.

Inputs: the command-line flag list with the top-level viper `Get` view
(`fistReadGet`), the cluster section `cf2` and the `saved-<cluster>`
section `cf3` (each `none` when `fistRead.Sub` returns nil), the default
immutable and dynamic flag maps, the cluster name and the default
configuration.  `confRewrite` is the value of `clusterconf.ConfRewrite`
after the cluster section is unmarshalled (the struct field is abstracted
as a Boolean input).  Alias registration and logging do not change the
key/value content modelled here. -/
def GetClusterConfig {V : Type} [DecidableEq V]
    (commandLineFlag : List String) (fistReadGet : String → Option V)
    (cf2 : Option (Vip V)) (cf3 : Option (Vip V))
    (ImmuableMap DynamicMap : GoMap V) (cluster : String) (conf : GoMap V)
    (confRewrite : Bool) : ClusterConfigResult V :=
  -- copy of the default immutable map plus the command-line flags
  let imm0 : GoMap V := commandLineFlag.foldl
    (fun acc f => match fistReadGet f with
      | some v => goInsert acc f v
      | none => acc)
    ImmuableMap
  let dyn0 : GoMap V := DynamicMap
  let clusterconf0 : GoMap V := conf
  if cluster ≠ "" then
    -- cluster section: unmarshal and add every key to the immutable map
    let step2 : GoMap V × GoMap V := match cf2 with
      | none => (imm0, clusterconf0)
      | some c2 =>
        ( c2.keys.foldl
            (fun acc f => match c2.get f with
              | some v => goInsert acc f v
              | none => acc)
            imm0
        , vipUnmarshal c2 clusterconf0 )
    let imm1 := step2.1
    let clusterconf1 := step2.2
    if confRewrite then
      match cf3 with
      | none =>
        { clustImmuableMap := imm1, clustDynamicMap := dyn0, clusterconf := clusterconf1 }
      | some c3 =>
        let c3r := savedReplaceImmutable imm1 c3
        { clustImmuableMap := imm1
        , clustDynamicMap := savedDynamicUpdate imm1 c3r dyn0
        , clusterconf := vipUnmarshal c3r clusterconf1 }
    else
      { clustImmuableMap := imm1, clustDynamicMap := dyn0, clusterconf := clusterconf1 }
  else
    { clustImmuableMap := imm0, clustDynamicMap := dyn0, clusterconf := clusterconf0 }

/-- The alias pairs registered by `ReplicationManager.initAlias`, in
registration order: `RegisterAlias(alias, key)` makes `alias` an alternate
name for `key`. -/
def initAliasList : List (String × String) :=
  [ ("monitoring-config-rewrite", "monitoring-save-config")
  , ("api-user", "api-credentials")
  , ("replication-master-connection", "replication-source-name")
  , ("logfile", "log-file")
  , ("wait-kill", "switchover-wait-kill")
  , ("user", "db-servers-credential")
  , ("hosts", "db-servers-hosts")
  , ("hosts-tls-ca-cert", "db-servers-tls-ca-cert")
  , ("hosts-tls-client-key", "db-servers-tls-client-key")
  , ("hosts-tls-client-cert", "db-servers-tls-client-cert")
  , ("connect-timeout", "db-servers-connect-timeout")
  , ("rpluser", "replication-credential")
  , ("prefmaster", "db-servers-prefered-master")
  , ("ignore-servers", "db-servers-ignored-hosts")
  , ("master-connection", "replication-master-connection")
  , ("master-connect-retry", "replication-master-connection-retry")
  , ("readonly", "failover-readonly-state")
  , ("maxscale-host", "maxscale-servers")
  , ("mdbshardproxy-hosts", "mdbshardproxy-servers")
  , ("multimaster", "replication-multi-master")
  , ("multi-tier-slave", "replication-multi-tier-slave")
  , ("pre-failover-script", "failover-pre-script")
  , ("post-failover-script", "failover-post-script")
  , ("rejoin-script", "autorejoin-script")
  , ("share-directory", "monitoring-sharedir")
  , ("working-directory", "monitoring-datadir")
  , ("interactive", "failover-mode")
  , ("failcount", "failover-falsepositive-ping-counter")
  , ("wait-write-query", "switchover-wait-write-query")
  , ("wait-trx", "switchover-wait-trx")
  , ("gtidcheck", "switchover-at-equal-gtid")
  , ("maxdelay", "failover-max-slave-delay")
  , ("maxscale-host", "maxscale-servers")
  , ("maxscale-pass", "maxscale-password")
  , ("api-credential", "api-credentials") ]

/-- The viper alias table built from `initAlias`. -/
def registeredAlias (k : String) : Option String := initAliasList.lookup k

/-- Viper key resolution (`realKey`): follow alias links until a key that
is not an alias is reached.  Viper recurses without bound; the embedding
carries explicit fuel, `initAliasList.length` being enough for every chain
the table can form. -/
def realKey : Nat → String → String
  | 0, k => k
  | fuel + 1, k => match registeredAlias k with
    | some k2 => realKey fuel k2
    | none => k

/-! ## Event-code dictionary (`clusterError`, cluster package)

The package-level read-only table of event codes.  Five of the message
strings contain a typewriter apostrophe; it is written here as `squote`
(character code 39) so the values match the Go literals byte for byte. -/

/-- The apostrophe character, U+0027, as a one-character string. -/
def squote : String := String.singleton (Char.ofNat 39)

/-- The `clusterError` map of the cluster package, every entry transcribed
from the source. -/
def clusterError : List (String × String) :=
  [ ("ERR00001", "Monitor freeze while running critical section")
  , ("ERR00002", "Waiting for a user manual failover")
  , ("ERR00004", "Database %s access denied: %s")
  , ("ERR00005", "Could not get privileges for user %s@%s: %s")
  , ("ERR00006", "User must have REPLICATION CLIENT privilege on %s")
  , ("ERR00007", "User must have REPLICATION SLAVE privilege on %s")
  , ("ERR00008", "User must have SUPER privilege %s")
  , ("ERR00009", "User must have RELOAD privilege %s")
  , ("ERR00010", "Could not find a slave in topology")
  , ("ERR00011", "Found multiple masters in topology but not explicitely setup")
  , ("ERR00012", "Could not find a master in topology")
  , ("ERR00013", "Binary log disabled on slave: %s")
  , ("ERR00014", "Could not get binlog dump count on server %s: %s")
  , ("ERR00015", "Could not get privileges for user %s on server %s: %s")
  , ("ERR00016", "Master is unreachable but slaves are replicating")
  , ("ERR00017", "Unable to fetch MaxScale monitoring information")
  , ("ERR00018", "Could not connect to MaxScale: %s")
  , ("ERR00019", "Could not get MaxScale maxadmin server list: %s")
  , ("ERR00020", "Could not get MaxScale maxinfo server list: %s")
  , ("ERR00021", "Cluster state down")
  , ("ERR00022", "Running in passive mode")
  , ("ERR00023", "Constraint failed: state %s, conf.Interactive %t cluster.isMaxMasterFailedCountReach %t")
  , ("ERR00024", "Constraint failed: isExternalOk %t,isActiveArbitration %t,isBeetwenFailoverTimeTooShort %t ,isMaxClusterFailoverCountReach %t, isOneSlaveHeartbeatIncreasing %t, isMaxscaleSupectRunning %t")
  , ("ERR00025", "Could not get MaxScale maxinfo server list: %s")
  , ("ERR00026", "First node restarted is a slave, non-interactive mode")
  , ("ERR00027", "Number of cluster failovers exceeded")
  , ("ERR00028", "Slave %s can still communicate with the master")
  , ("ERR00029", "Time between failovers too short")
  , ("ERR00030", "Maxscale %s can still communicate with the master")
  , ("ERR00031", "External API can still communicate with the master")
  , ("ERR00032", "No candidates found in slaves list")
  , ("ERR00033", "Skip slave in election %s have no master log file, slave might have failed")
  , ("ERR00034", "Skip slave in election %s repl not electable for switchover")
  , ("ERR00035", "Skip slave in election %s multi-master and is already the master")
  , ("ERR00036", "Skip slave in election %s is relay")
  , ("ERR00037", "Skip slave in election %s in ignore list")
  , ("ERR00038", "Skip slave in election %s repl not electable for failover")
  , ("ERR00039", "Skip slave in election %s repl not electable")
  , ("ERR00040", "Skip slave in election %s does not ping or has no binlogs")
  , ("ERR00041", "Skip slave in election %s has more than %d seconds of replication delay (%d)")
  , ("ERR00042", "Skip slave in election %s SQL Thread is stopped")
  , ("ERR00043", "Skip slave in election %s Semisync report unsynced")
  , ("ERR00044", "Can" ++ squote ++ "t connect to OpenSVC collector %s")
  , ("ERR00045", "Found forbidden relay topology, trying to fix")
  , ("ERR00046", "Can" ++ squote ++ "t fix relay topology: high replication delay")
  , ("ERR00047", "Skip slave in election %s - Maintenance mode")
  , ("ERR00048", "Broken muti master ring")
  , ("ERR00049", "Waiting old master to rejoin in positional mode to rejoin slave")
  , ("ERR00050", "Can" ++ squote ++ "t connect to proxy %s")
  , ("ERR00051", "ProxySQL connection error: %s")
  , ("ERR00052", "Could not get stats to HaProxy: %s")
  , ("ERR00053", "ProxySQL can" ++ squote ++ "t load users (%s)")
  , ("ERR00054", "ProxySQL can" ++ squote ++ "t add user (%s)")
  , ("ERR00055", "Arbitrator unreachable (%s)")
  , ("ERR00056", "Master user %s is not defined on replication candidate %s")
  , ("ERR00057", "Database duplicate users not allowed in proxysql %s")
  , ("ERR00058", "Sphinx connection error: %s")
  , ("ERR00059", "Ignored server %s not found in configured server list")
  , ("ERR00060", "To many non closed task in scheduler, donor may not work on server %s")
  , ("ERR00061", "No user:password credential specified")
  , ("ERR00062", "DNS resolution for host %s error %s")
  , ("ERR00063", "Extra master in master slave topology rejoin it after split brain")
  , ("ERR00064", "Server %s is not a slave of declared master %s, and replication no relay is enable: Pointing to %s")
  , ("ERR00065", "No crash found on current master when rejoining slave %s to %s")
  , ("ERR00066", "No crash found on current master when rejoining standalone %s to %s")
  , ("ERR00067", "Found slave to rejoin %s slave was previously in state %s replication io thread  %s, pointing currently to %s")
  , ("ERR00068", "Arbitration looser")
  , ("ERR00069", "ProxySQL could not set %s as reader (%s) different state OFFLINE_HARD")
  , ("ERR00070", "ProxySQL could not set %s as reader (%s) different state ONLINE")
  , ("ERR00071", "ProxySQL could not set discoverd master %s as writer (%s)")
  , ("ERR00072", "ProxySQL could not set discoverd slave %s as reader (%s)")
  , ("ERR00073", "Could not get events on server %s")
  , ("ERR00074", "Prefered server %s not found in configured server list")
  , ("ERR00075", "Can" ++ squote ++ "t fecth Processlist %s")
  , ("ERR00076", "Connections reach 80 pourcent threshold: %s")
  , ("ERR00077", "All databases state down")
  , ("ERR00078", "Could not resolve IP from connection %s@%s: with hostname %s on server %s")
  , ("ERR00079", "Disk %s usage high on %s")
  , ("ERR00080", "Connection use old TLS keys on %s")
  , ("ERR00081", "Connection use no TLS keys on %s")
  , ("ERR00082", "Could not get agents from orchestrator %s")
  , ("ERR00083", "Different cluster uuid found on %s:%s %s:%s")
  , ("ERR00084", "Cluster have no master when slave %s was started")
  , ("ERR00085", "No replica found for routing reads")
  , ("ERR00086", "Sharding proxy refresh no database monitor yet initialize")
  , ("ERR00087", "Skip slave in election %s IO Thread is stopped with valid leader")
  , ("ERR00088", "Authentification error in replication IO thread")
  , ("ERR00089", "Authentification error to Vault %s")
  , ("ERR00090", "Monitoring save config enable but no encryption key for password, see the keygen command")
  , ("WARN0022", "Rejoining standalone server %s to master %s")
  , ("WARN0023", "Number of failed master ping has been reached")
  , ("WARN0045", "Provision task is in queue")
  , ("WARN0046", "Provision task is waiting")
  , ("WARN0047", "Entreprise provision of MariaDB Sharding Cluster not yet implemented")
  , ("WARN0048", "No semisync settings on slave %s")
  , ("WARN0049", "No binlog format ROW on slave %s and flashback activated")
  , ("WARN0050", "No Heartbeat <= 1s on slave %s")
  , ("WARN0051", "No GTID replication on slave %s")
  , ("WARN0052", "No InnoDB durability on slave %s")
  , ("WARN0053", "No replication checksum on slave %s")
  , ("WARN0054", "No log of replication queries in slow query on slave %s")
  , ("WARN0055", "ROW or MIXED binlog format and replicate_annotate_row_events is off on slave %s")
  , ("WARN0056", "No compression of binlog on slave %s")
  , ("WARN0057", "No log-slave-updates on slave %s")
  , ("WARN0058", "No GTID strict mode on slave %s")
  , ("WARN0059", "No replication crash-safe settings on slave %s")
  , ("WARN0060", "No semisync settings on master %s")
  , ("WARN0061", "No binlog format ROW on master %s and flashback activated")
  , ("WARN0062", "No Heartbeat <= 1s on master %s")
  , ("WARN0064", "No InnoDB durability on master %s")
  , ("WARN0065", "No replication checksum on master %s")
  , ("WARN0066", "No log of replication queries in slow query on master %s")
  , ("WARN0067", "RBR is on and Binlog Annotation is off on master %s")
  , ("WARN0068", "No compression of binlog on slave %s")
  , ("WARN0069", "No log-slave-updates on master %s")
  , ("WARN0070", "No GTID strict mode on master %s")
  , ("WARN0071", "No replication crash-safe settings on master %s")
  , ("WARN0072", "Running optimize table %s on server %s")
  , ("WARN0073", "Running physical backup %s on server %s")
  , ("WARN0074", "Reseeding physical backup %s on server %s")
  , ("WARN0075", "Reseeding logical backup %s on server %s")
  , ("WARN0076", "Flashback physical backup %s on server %s")
  , ("WARN0077", "Flashback logical backup %s on server %s")
  , ("WARN0078", "Haproxy version to old to get statistics")
  , ("WARN0079", "Cluster is split brain")
  , ("WARN0080", "Cluster lost majority")
  , ("WARN0081", "Cluster arbitrator error in reporting %s")
  , ("WARN0082", "Cluster arbitrator error in arbitration %s")
  , ("WARN0083", "Arbitration winner")
  , ("WARN0084", "Variable diff:\n %s")
  , ("WARN0085", "Server %s in capture mode")
  , ("WARN0086", "Checksum table waiting replication sync on slave %s")
  , ("WARN0087", "Cluster same server_id %s %s")
  , ("WARN0088", "High number of slow queries %s ")
  , ("WARN0089", "ShardProxy Could not fetch master schemas %s")
  , ("WARN0090", "Cluster arbitrator unreachable %s")
  , ("WARN0091", "Server as errant transaction %s")
  , ("WARN0092", "ProxySQL could not load query rules from runtime (%s)")
  , ("WARN0093", "Restic fetch repo issue: %s\n%s\n%s")
  , ("WARN0094", "Restic purge repo issue: %s\n%s\n%s")
  , ("WARN0095", "Restic init repo issue: %s\n%s\n%s")
  , ("WARN0096", "Restart database server via job request %s")
  , ("WARN0097", "Stop database server via job request %s")
  , ("WARN0098", "ProxySQL could not load global variables from runtime (%s)")
  , ("WARN0099", "MariaDB version as replication issue https://jira.mariadb.org/browse/MDEV-20821")
  , ("WARN0100", "No space left on device pn %s")
  , ("WARN0101", "Cluster does not have backup")
  , ("WARN0102", "The config file must be merge because an immutable parameter has been changed. Use the config-merge command to save your changes.")
  , ("WARN0103", "Enforce replication mode idempotent but  strict on server %s")
  , ("WARN0104", "Enforce replication mode strict but idempotent on server %s") ]

/-- Map view of `clusterError` (Go map indexing `clusterError[code]`). -/
def clusterErrorGet (code : String) : Option String := clusterError.lookup code

/-! ## Proxy monitor refresh (`refreshProxies`, cluster package)

Proxy states are distinct strings in Go (`stateProxyRunning`,
`stateFailed`, `stateSuspect`, with the zero value `""` before the first
assignment); they are embedded as an inductive type.  A driver
`Refresh()` call either succeeds or returns an error; the outcome is an
explicit Boolean input per proxy. -/

/-- Proxy state constants of the cluster package, plus `unset` for the Go
zero string value. -/
inductive PrxState where
  | proxyRunning
  | failed
  | suspect
  | unset
deriving Repr, DecidableEq

/-- The slice of `Proxy` read or written by `refreshProxies`: the stored
fail count, state, previous state, and the wait-start / wait-stop /
restart cookies. -/
structure Proxy where
  FailCount : Int
  State : PrxState
  PrevState : PrxState
  hasWaitStartCookie : Bool
  hasWaitStopCookie : Bool
  hasRestartCookie : Bool
deriving Repr, DecidableEq

/-- One iteration of the loop body of `Cluster.refreshProxies` for a proxy
`p`, where `refreshErr` tells whether `pr.Refresh()` returned an error and
`maxFail` is `cluster.Conf.MaxFail`.

On success: `SetFailCount(0)`, `SetState(stateProxyRunning)`, and the
wait-start cookie is deleted when present.  On error the Go code computes
`fc := pr.GetFailCount() + 1` and compares it with `MaxFail` but never
stores `fc` back into the proxy; at or above the threshold it sets
`stateFailed` and deletes the wait-stop and restart cookies, below it it
sets `stateSuspect`.  Finally `PrevState` is aligned with `State` when they
differ.  (`SendStats` under `GraphiteMetrics` does not change the proxy.) -/
def refreshProxyStep (maxFail : Int) (refreshErr : Bool) (p : Proxy) : Proxy :=
  let p1 :=
    if refreshErr = false then
      let pa := { p with FailCount := 0, State := PrxState.proxyRunning }
      if pa.hasWaitStartCookie then { pa with hasWaitStartCookie := false } else pa
    else
      let fc := p.FailCount + 1
      if fc ≥ maxFail then
        { p with State := PrxState.failed
               , hasWaitStopCookie := false
               , hasRestartCookie := false }
      else
        { p with State := PrxState.suspect }
  if p1.PrevState ≠ p1.State then { p1 with PrevState := p1.State } else p1

/-- `Cluster.refreshProxies`: the loop body applied to every monitored
proxy, paired with the outcome of its driver `Refresh()` call this pass. -/
def refreshProxies (maxFail : Int) (proxies : List (Proxy × Bool)) : List Proxy :=
  proxies.map (fun pe => refreshProxyStep maxFail pe.2 pe.1)

/-! ## Helper lemmas -/

theorem splitCommaAux_ne_nil : ∀ l : List Char, splitCommaAux l ≠ []
  | [] => by simp [splitCommaAux]
  | c :: rest => by
    have ih := splitCommaAux_ne_nil rest
    unfold splitCommaAux
    cases h : splitCommaAux rest with
    | nil => exact absurd h ih
    | cons g gs =>
      simp only [h]
      split <;> simp

theorem goSplitComma_ne_nil (s : String) : goSplitComma s ≠ [] := by
  intro h
  exact splitCommaAux_ne_nil s.data (by simpa [goSplitComma] using h)

theorem heartbeatPeerSplitBrain_of_isFailure (r : PeerResult) (b : Bool)
    (h : r.isFailure = true) : HeartbeatPeerSplitBrain r b = true := by
  cases r <;> simp_all [PeerResult.isFailure, HeartbeatPeerSplitBrain]

theorem heartbeatFold_eq (pr : String → PeerResult) (bck : Bool) :
    ∀ (l : List String) (hne : l ≠ []) (r : Repman),
      List.foldl
          (fun acc peer =>
            { acc with SplitBrain := HeartbeatPeerSplitBrain (pr peer) bck })
          r l
        = { r with SplitBrain := HeartbeatPeerSplitBrain (pr (l.getLast hne)) bck } := by
  intro l
  induction l with
  | nil => intro hne; exact absurd rfl hne
  | cons p t ih =>
    intro hne r
    cases t with
    | nil => rfl
    | cons q t2 =>
      rw [List.foldl_cons, ih (by simp)]
      rfl

theorem int64wrap_eq_self {n : Int} (h1 : -(2 ^ 63) ≤ n) (h2 : n < 2 ^ 63) :
    int64wrap n = n := by
  unfold int64wrap
  rw [Int.emod_eq_of_lt (by omega) (by omega)]
  omega

/-! ## Claim theorems: heartbeat and split brain -/

/-- Claim C1, counterexample.  A peer that is reachable and whose reply
reports the same cluster (`cluster1`) up (status `A`) with a primary
(`db2:3306`) different from the local one (`db1:3306`) does NOT set the
local split-brain flag: `HeartbeatPeerSplitBrain` returns `false` for
every parsed reply, and the `Heartbeat` run leaves the supervisor flag and
every cluster flag `false`. -/
theorem heartbeatPeer_different_master_not_flagged :
    HeartbeatPeerSplitBrain
        (PeerResult.ok
          { UUID := "peer-uuid", Secret := "s", Cluster := "cluster1"
          , Master := "db2:3306", UID := 2, Status := "A", Hosts := 2, Failed := 0 })
        false = false
      ∧ (Heartbeat.run "default"
          (fun _ => PeerResult.ok
            { UUID := "peer-uuid", Secret := "s", Cluster := "cluster1"
            , Master := "db2:3306", UID := 2, Status := "A", Hosts := 2, Failed := 0 })
          { Conf := { ArbitrationPeerHosts := "peer1:10001", Arbitration := true
                    , MonitoringTicker := 2, ArbitrationSasUniqueId := 1
                    , ArbitrationSasSecret := "s" }
          , SplitBrain := false, Status := "A", UUID := "local-uuid"
          , Clusters := [{ Name := "cluster1", Master := "db1:3306", IsSplitBrain := false }] }).SplitBrain
          = false
      ∧ (Heartbeat.run "default"
          (fun _ => PeerResult.ok
            { UUID := "peer-uuid", Secret := "s", Cluster := "cluster1"
            , Master := "db2:3306", UID := 2, Status := "A", Hosts := 2, Failed := 0 })
          { Conf := { ArbitrationPeerHosts := "peer1:10001", Arbitration := true
                    , MonitoringTicker := 2, ArbitrationSasUniqueId := 1
                    , ArbitrationSasSecret := "s" }
          , SplitBrain := false, Status := "A", UUID := "local-uuid"
          , Clusters := [{ Name := "cluster1", Master := "db1:3306", IsSplitBrain := false }] }).Clusters
          = [{ Name := "cluster1", Master := "db1:3306", IsSplitBrain := false }] := by
  decide

/-- Claim C1, amended.  During the peer heartbeat check, a reachable peer
whose reply parses as a `Heartbeat` never sets the split-brain flag,
whatever cluster or primary the reply reports; the split-brain result is
`true` exactly when the exchange with the peer fails (request,
transport, read or unmarshal). -/
theorem heartbeatPeerSplitBrain_false_iff_parsed (h : Heartbeat) (bck : Bool)
    (r : PeerResult) :
    HeartbeatPeerSplitBrain (PeerResult.ok h) bck = false
      ∧ (HeartbeatPeerSplitBrain r bck = false ↔ ∃ h2, r = PeerResult.ok h2) := by
  refine ⟨rfl, ?_⟩
  cases r <;> simp [HeartbeatPeerSplitBrain]

/-- Claim C2.  Each of the four failure modes of the peer heartbeat call —
request construction error, transport error, body read error, JSON
unmarshal error — makes `HeartbeatPeerSplitBrain` return `true`; hence in a
tick in which every configured peer check fails, `Heartbeat` leaves the
supervisor in the split-brain (failover-inhibiting) state. -/
theorem heartbeatPeerSplitBrain_failure_modes_true :
    (∀ bck : Bool,
        HeartbeatPeerSplitBrain PeerResult.reqError bck = true
        ∧ HeartbeatPeerSplitBrain PeerResult.doError bck = true
        ∧ HeartbeatPeerSplitBrain PeerResult.readError bck = true
        ∧ HeartbeatPeerSplitBrain PeerResult.unmarshalError bck = true)
      ∧ ∀ (cfgGroup : String) (pr : String → PeerResult) (r : Repman),
          cfgGroup ≠ "arbitrator" →
          r.Conf.ArbitrationPeerHosts ≠ "" →
          (∀ p, (pr p).isFailure = true) →
          (Heartbeat.run cfgGroup pr r).SplitBrain = true := by
  refine ⟨fun bck => ⟨rfl, rfl, rfl, rfl⟩, ?_⟩
  intro cfgGroup pr r hgrp hp hfail
  have hfold := heartbeatFold_eq pr r.SplitBrain
    (goSplitComma r.Conf.ArbitrationPeerHosts) (goSplitComma_ne_nil _) r
  simp only [Heartbeat.run, if_neg hgrp, if_pos hp, hfold]
  exact heartbeatPeerSplitBrain_of_isFailure _ _ (hfail _)

/-- Witness for C2 at a concrete state: a single peer whose transport
fails leaves the supervisor split-brain flag `true`. -/
theorem heartbeatPeerSplitBrain_failure_modes_true_witness :
    (Heartbeat.run "default" (fun _ => PeerResult.doError)
        { Conf := { ArbitrationPeerHosts := "peer1:10001", Arbitration := true
                  , MonitoringTicker := 2, ArbitrationSasUniqueId := 1
                  , ArbitrationSasSecret := "s" }
        , SplitBrain := false, Status := "A", UUID := "local-uuid"
        , Clusters := [{ Name := "cluster1", Master := "db1:3306", IsSplitBrain := false }] }).SplitBrain
      = true :=
  heartbeatPeerSplitBrain_failure_modes_true.2 "default" (fun _ => PeerResult.doError)
    _ (by decide) (by decide) (fun _ => rfl)

/-- Claim C6.  The HTTP client used for the peer heartbeat request has a
timeout of exactly four times the monitoring tick period: with
`MonitoringTicker` = `t` seconds, the computed `time.Duration` equals
`4 * (t * 1000000000)` nanoseconds, i.e. `4 t` seconds, whenever the
product stays inside the `int64` range. -/
theorem heartbeatPeerClientTimeout_is_four_ticks (t : Int)
    (h1 : -(2 ^ 63) ≤ t * 1000000000) (h2 : t * 1000000000 < 2 ^ 63)
    (h3 : -(2 ^ 63) ≤ t * 1000000000 * 4) (h4 : t * 1000000000 * 4 < 2 ^ 63) :
    heartbeatPeerClientTimeout t = 4 * (t * 1000000000) := by
  unfold heartbeatPeerClientTimeout
  rw [int64wrap_eq_self h1 h2, int64wrap_eq_self h3 h4]
  ring

/-- Witness for C6 at the default tick period of 2 seconds: the client
timeout is 8 seconds in nanoseconds. -/
theorem heartbeatPeerClientTimeout_is_four_ticks_witness :
    heartbeatPeerClientTimeout 2 = 4 * (2 * 1000000000) :=
  heartbeatPeerClientTimeout_is_four_ticks 2 (by decide) (by decide)
    (by decide) (by decide)

/-- Claim C9.  After a `Heartbeat` run with a non-empty arbitration peer
list, the supervisor `SplitBrain` flag equals the peer-check result for the
last peer of the configured list (each iteration overwrites the previous
result), and every cluster carries exactly that final flag in
`IsSplitBrain`. -/
theorem heartbeat_splitbrain_last_peer_propagates
    (cfgGroup : String) (pr : String → PeerResult) (r : Repman)
    (hgrp : cfgGroup ≠ "arbitrator") (hp : r.Conf.ArbitrationPeerHosts ≠ "") :
    (Heartbeat.run cfgGroup pr r).SplitBrain
        = HeartbeatPeerSplitBrain
            (pr ((goSplitComma r.Conf.ArbitrationPeerHosts).getLast
              (goSplitComma_ne_nil _)))
            r.SplitBrain
      ∧ (Heartbeat.run cfgGroup pr r).Clusters
          = r.Clusters.map (fun cl =>
              { cl with
                  IsSplitBrain :=
                    HeartbeatPeerSplitBrain
                      (pr ((goSplitComma r.Conf.ArbitrationPeerHosts).getLast
                        (goSplitComma_ne_nil _)))
                      r.SplitBrain }) := by
  have hfold := heartbeatFold_eq pr r.SplitBrain
    (goSplitComma r.Conf.ArbitrationPeerHosts) (goSplitComma_ne_nil _) r
  constructor <;> simp only [Heartbeat.run, if_neg hgrp, if_pos hp, hfold]

/-- Witness for C9: two configured peers, the first unreachable and the
second answering with a parsed reply; the final flag is the result for the
second (last) peer, namely `false`, and the cluster carries it. -/
theorem heartbeat_splitbrain_last_peer_propagates_witness :
    (Heartbeat.run "default"
        (fun p => if p = "peer2:10001"
          then PeerResult.ok
            { UUID := "peer-uuid", Secret := "s", Cluster := "cluster1"
            , Master := "db2:3306", UID := 2, Status := "A", Hosts := 2, Failed := 0 }
          else PeerResult.doError)
        { Conf := { ArbitrationPeerHosts := "peer1:10001,peer2:10001"
                  , Arbitration := true, MonitoringTicker := 2
                  , ArbitrationSasUniqueId := 1, ArbitrationSasSecret := "s" }
        , SplitBrain := true, Status := "A", UUID := "local-uuid"
        , Clusters := [{ Name := "cluster1", Master := "db1:3306", IsSplitBrain := true }] }).SplitBrain
      = false := by
  have h := heartbeat_splitbrain_last_peer_propagates "default"
    (fun p => if p = "peer2:10001"
      then PeerResult.ok
        { UUID := "peer-uuid", Secret := "s", Cluster := "cluster1"
        , Master := "db2:3306", UID := 2, Status := "A", Hosts := 2, Failed := 0 }
      else PeerResult.doError)
    { Conf := { ArbitrationPeerHosts := "peer1:10001,peer2:10001"
              , Arbitration := true, MonitoringTicker := 2
              , ArbitrationSasUniqueId := 1, ArbitrationSasSecret := "s" }
    , SplitBrain := true, Status := "A", UUID := "local-uuid"
    , Clusters := [{ Name := "cluster1", Master := "db1:3306", IsSplitBrain := true }] }
    (by decide) (by decide)
  exact h.1.trans (by decide)

/-- Claim C10.  With no arbitration peer hosts configured, `Heartbeat`
only clears the `Arbitration` configuration flag: the supervisor
`SplitBrain` flag and the clusters (hence every `IsSplitBrain`) are left
unchanged, and the run is independent of the peer responses, i.e. no peer
exchange influences it. -/
theorem heartbeat_no_peers_disables_arbitration
    (cfgGroup : String) (pr pr2 : String → PeerResult) (r : Repman)
    (hgrp : cfgGroup ≠ "arbitrator") (hp : r.Conf.ArbitrationPeerHosts = "") :
    Heartbeat.run cfgGroup pr r
        = { r with Conf := { r.Conf with Arbitration := false } }
      ∧ (Heartbeat.run cfgGroup pr r).SplitBrain = r.SplitBrain
      ∧ (Heartbeat.run cfgGroup pr r).Clusters = r.Clusters
      ∧ Heartbeat.run cfgGroup pr r = Heartbeat.run cfgGroup pr2 r := by
  have hcond : ¬ r.Conf.ArbitrationPeerHosts ≠ "" := by simp [hp]
  refine ⟨?_, ?_, ?_, ?_⟩ <;>
    simp only [Heartbeat.run, if_neg hgrp, if_neg hcond]

/-- Witness for C10 at a concrete state with empty peer hosts. -/
theorem heartbeat_no_peers_disables_arbitration_witness :
    (Heartbeat.run "default" (fun _ => PeerResult.doError)
        { Conf := { ArbitrationPeerHosts := "", Arbitration := true
                  , MonitoringTicker := 2, ArbitrationSasUniqueId := 1
                  , ArbitrationSasSecret := "s" }
        , SplitBrain := false, Status := "A", UUID := "local-uuid"
        , Clusters := [{ Name := "cluster1", Master := "db1:3306", IsSplitBrain := false }] }).Clusters
      = [{ Name := "cluster1", Master := "db1:3306", IsSplitBrain := false }] := by
  have h := heartbeat_no_peers_disables_arbitration "default"
    (fun _ => PeerResult.doError) (fun _ => PeerResult.reqError)
    { Conf := { ArbitrationPeerHosts := "", Arbitration := true
              , MonitoringTicker := 2, ArbitrationSasUniqueId := 1
              , ArbitrationSasSecret := "s" }
    , SplitBrain := false, Status := "A", UUID := "local-uuid"
    , Clusters := [{ Name := "cluster1", Master := "db1:3306", IsSplitBrain := false }] }
    (by decide) rfl
  exact h.2.2.1

/-! ## Claim theorems: proxy refresh -/

/-- Claim C3, evaluation of the code at the failing input.  With
`MaxFail = 5` and a proxy whose stored fail count is 0, two consecutive
driver `Refresh` errors leave the stored fail count at 0 — the loop body
computes `fc := GetFailCount() + 1` but never stores it back — so errors do
not accumulate and the state stays `suspect` instead of ever reaching
`failed`; a successful refresh does reset the count to 0 and set the state
to running, as the claim says. -/
theorem refreshProxies_error_does_not_increment :
    refreshProxies 5
        [({ FailCount := 0, State := PrxState.suspect, PrevState := PrxState.unset
          , hasWaitStartCookie := false, hasWaitStopCookie := false
          , hasRestartCookie := false }, true)]
        = [{ FailCount := 0, State := PrxState.suspect, PrevState := PrxState.suspect
           , hasWaitStartCookie := false, hasWaitStopCookie := false
           , hasRestartCookie := false }]
      ∧ (refreshProxyStep 5 true (refreshProxyStep 5 true
          { FailCount := 0, State := PrxState.suspect, PrevState := PrxState.unset
          , hasWaitStartCookie := false, hasWaitStopCookie := false
          , hasRestartCookie := false })).FailCount = 0
      ∧ (refreshProxyStep 5 true (refreshProxyStep 5 true
          { FailCount := 0, State := PrxState.suspect, PrevState := PrxState.unset
          , hasWaitStartCookie := false, hasWaitStopCookie := false
          , hasRestartCookie := false })).State = PrxState.suspect
      ∧ (refreshProxyStep 5 false
          { FailCount := 3, State := PrxState.suspect, PrevState := PrxState.suspect
          , hasWaitStartCookie := false, hasWaitStopCookie := false
          , hasRestartCookie := false }).FailCount = 0
      ∧ (refreshProxyStep 5 false
          { FailCount := 3, State := PrxState.suspect, PrevState := PrxState.suspect
          , hasWaitStartCookie := false, hasWaitStopCookie := false
          , hasRestartCookie := false }).State = PrxState.proxyRunning := by
  decide

/-! ## Claim theorems: event-code dictionary -/

/-- Claim C4, counterexample.  The `clusterError` table does not map
`ERR00032` to the exact string claimed; the stored message is
"No candidates found in slaves list". -/
theorem clusterError_ERR00032_text_differs :
    clusterErrorGet "ERR00032" ≠ some "No candidates found"
      ∧ clusterErrorGet "ERR00032" = some "No candidates found in slaves list" := by
  constructor
  · decide
  · rfl

/-- Claim C4, amended.  The read-only event-code table maps `ERR00012` to
"Could not find a master in topology", `ERR00027` to "Number of cluster
failovers exceeded", `ERR00029` to "Time between failovers too short",
`ERR00032` to "No candidates found in slaves list", and contains `WARN0079`
("Cluster is split brain") as the split-brain warning code. -/
theorem clusterError_code_dictionary :
    clusterErrorGet "ERR00012" = some "Could not find a master in topology"
      ∧ clusterErrorGet "ERR00027" = some "Number of cluster failovers exceeded"
      ∧ clusterErrorGet "ERR00029" = some "Time between failovers too short"
      ∧ clusterErrorGet "ERR00032" = some "No candidates found in slaves list"
      ∧ clusterErrorGet "WARN0079" = some "Cluster is split brain" := by
  refine ⟨rfl, rfl, rfl, rfl, rfl⟩

/-! ## Claim theorems: configuration aliases and served endpoint -/

/-- Claim C7.  `initAlias` registers the alias pairs
`prefmaster` ↔ `db-servers-prefered-master`,
`maxdelay` ↔ `failover-max-slave-delay`,
`interactive` ↔ `failover-mode` and
`gtidcheck` ↔ `switchover-at-equal-gtid`, and under viper key resolution
both names of each pair resolve to the same effective key. -/
theorem initAlias_registers_documented_pairs :
    ("prefmaster", "db-servers-prefered-master") ∈ initAliasList
      ∧ ("maxdelay", "failover-max-slave-delay") ∈ initAliasList
      ∧ ("interactive", "failover-mode") ∈ initAliasList
      ∧ ("gtidcheck", "switchover-at-equal-gtid") ∈ initAliasList
      ∧ realKey initAliasList.length "prefmaster"
          = realKey initAliasList.length "db-servers-prefered-master"
      ∧ realKey initAliasList.length "maxdelay"
          = realKey initAliasList.length "failover-max-slave-delay"
      ∧ realKey initAliasList.length "interactive"
          = realKey initAliasList.length "failover-mode"
      ∧ realKey initAliasList.length "gtidcheck"
          = realKey initAliasList.length "switchover-at-equal-gtid" := by
  decide

/-- Claim C8.  The served heartbeat endpoint always responds with a JSON
object whose fields are exactly `uuid`, `secret`, `cluster`, `master`,
`id`, `status`, `hosts`, `failed`, in that order; and since the supervisor
status is initialised by `Run` to active or standby and never otherwise
assigned, the `status` field is always `"A"` or `"S"`. -/
theorem handlerMuxMonitorHeartbeat_fields_and_status
    (r : Repman) (arb : Bool) (hst : r.Status = runStatusInit arb) :
    (handlerMuxMonitorHeartbeat r).encode.map Prod.fst
        = ["uuid", "secret", "cluster", "master", "id", "status", "hosts", "failed"]
      ∧ ((handlerMuxMonitorHeartbeat r).encode.lookup "status"
            = some (JValue.str ConstMonitorActif)
          ∨ (handlerMuxMonitorHeartbeat r).encode.lookup "status"
            = some (JValue.str ConstMonitorStandby)) := by
  refine ⟨rfl, ?_⟩
  have hlook : (handlerMuxMonitorHeartbeat r).encode.lookup "status"
      = some (JValue.str r.Status) := rfl
  rw [hlook, hst]
  cases arb
  · exact Or.inl rfl
  · exact Or.inr rfl

/-- Witness for C8 at a concrete supervisor state without arbitration:
the endpoint reports exactly the eight fields and status active. -/
theorem handlerMuxMonitorHeartbeat_fields_and_status_witness :
    (handlerMuxMonitorHeartbeat
        { Conf := { ArbitrationPeerHosts := "", Arbitration := false
                  , MonitoringTicker := 2, ArbitrationSasUniqueId := 1
                  , ArbitrationSasSecret := "s" }
        , SplitBrain := false, Status := "A", UUID := "local-uuid"
        , Clusters := [] }).encode.map Prod.fst
        = ["uuid", "secret", "cluster", "master", "id", "status", "hosts", "failed"]
      ∧ ((handlerMuxMonitorHeartbeat
          { Conf := { ArbitrationPeerHosts := "", Arbitration := false
                    , MonitoringTicker := 2, ArbitrationSasUniqueId := 1
                    , ArbitrationSasSecret := "s" }
          , SplitBrain := false, Status := "A", UUID := "local-uuid"
          , Clusters := [] }).encode.lookup "status"
            = some (JValue.str ConstMonitorActif)
        ∨ (handlerMuxMonitorHeartbeat
            { Conf := { ArbitrationPeerHosts := "", Arbitration := false
                      , MonitoringTicker := 2, ArbitrationSasUniqueId := 1
                      , ArbitrationSasSecret := "s" }
            , SplitBrain := false, Status := "A", UUID := "local-uuid"
            , Clusters := [] }).encode.lookup "status"
            = some (JValue.str ConstMonitorStandby)) :=
  handlerMuxMonitorHeartbeat_fields_and_status
    { Conf := { ArbitrationPeerHosts := "", Arbitration := false
              , MonitoringTicker := 2, ArbitrationSasUniqueId := 1
              , ArbitrationSasSecret := "s" }
    , SplitBrain := false, Status := "A", UUID := "local-uuid"
    , Clusters := [] }
    false rfl

/-! ## Lemmas on the configuration merge -/

theorem Vip.set_keys_of_mem {V : Type} (cf : Vip V) (k : String) (v : V)
    (hk : k ∈ cf.keys) : (cf.set k v).keys = cf.keys := by
  simp [Vip.set, hk]

theorem Vip.set_get {V : Type} (cf : Vip V) (k q : String) (v : V) :
    (cf.set k v).get q = if q = k then some v else cf.get q := rfl

theorem savedReplace_fold_keys {V : Type} (imm : GoMap V) :
    ∀ (l : List String) (acc : Vip V), (∀ f ∈ l, f ∈ acc.keys) →
      (List.foldl
          (fun acc f => match imm f with
            | some v => acc.set f v
            | none => acc)
          acc l).keys = acc.keys := by
  intro l
  induction l with
  | nil => intro acc _; rfl
  | cons f t ih =>
    intro acc hsub
    have hf : f ∈ acc.keys := hsub f (List.mem_cons_self f t)
    rw [List.foldl_cons]
    cases himm : imm f with
    | some v =>
      have hkeys := Vip.set_keys_of_mem acc f v hf
      have hsub2 : ∀ g ∈ t, g ∈ (acc.set f v).keys := by
        intro g hg
        rw [hkeys]
        exact hsub g (List.mem_cons_of_mem f hg)
      simp only [himm]
      rw [ih (acc.set f v) hsub2, hkeys]
    | none =>
      simp only [himm]
      exact ih acc (fun g hg => hsub g (List.mem_cons_of_mem f hg))

theorem savedReplace_fold_get {V : Type} (imm : GoMap V) :
    ∀ (l : List String) (acc : Vip V) (k : String),
      (List.foldl
          (fun acc f => match imm f with
            | some v => acc.set f v
            | none => acc)
          acc l).get k
        = if k ∈ l ∧ (imm k).isSome then imm k else acc.get k := by
  intro l
  induction l with
  | nil => intro acc k; simp
  | cons f t ih =>
    intro acc k
    rw [List.foldl_cons, ih]
    by_cases hk : k = f
    · subst hk
      cases himm : imm k with
      | some v => simp [himm, Vip.set_get]
      | none => simp [himm]
    · cases himm : imm f with
      | some v => simp [himm, Vip.set_get, hk, List.mem_cons]
      | none => simp [himm, hk, List.mem_cons]

theorem savedReplaceImmutable_keys {V : Type} (imm : GoMap V) (cf3 : Vip V) :
    (savedReplaceImmutable imm cf3).keys = cf3.keys :=
  savedReplace_fold_keys imm cf3.keys cf3 (fun _ hf => hf)

theorem savedReplaceImmutable_get {V : Type} (imm : GoMap V) (cf3 : Vip V)
    (k : String) :
    (savedReplaceImmutable imm cf3).get k
      = if k ∈ cf3.keys ∧ (imm k).isSome then imm k else cf3.get k :=
  savedReplace_fold_get imm cf3.keys cf3 k

theorem goMapInsert_fold_get {V : Type} (g : String → Option V) :
    ∀ (l : List String) (acc : GoMap V) (k : String),
      (List.foldl
          (fun acc f => match g f with
            | some v => goInsert acc f v
            | none => acc)
          acc l) k
        = if k ∈ l ∧ (g k).isSome then g k else acc k := by
  intro l
  induction l with
  | nil => intro acc k; simp
  | cons f t ih =>
    intro acc k
    rw [List.foldl_cons, ih]
    by_cases hk : k = f
    · subst hk
      cases hg : g k with
      | some v => simp [hg, goInsert]
      | none => simp [hg]
    · cases hg : g f with
      | some v => simp [hg, goInsert, hk, List.mem_cons]
      | none => simp [hg, hk, List.mem_cons]

theorem vipUnmarshal_get {V : Type} (cf : Vip V) (conf : GoMap V) (k : String) :
    vipUnmarshal cf conf k
      = if k ∈ cf.keys ∧ (cf.get k).isSome then cf.get k else conf k :=
  goMapInsert_fold_get cf.get cf.keys conf k

theorem savedDyn_fold_get {V : Type} [DecidableEq V] (imm : GoMap V)
    (cf3 : Vip V) :
    ∀ (l : List String) (acc : GoMap V) (k : String),
      (List.foldl
          (fun acc f => match cf3.get f with
            | some v => match imm f with
              | some immv => if immv ≠ v then goInsert acc f v else acc
              | none => goInsert acc f v
            | none => acc)
          acc l) k
        = if k ∈ l ∧ dynTriggers imm cf3 k then cf3.get k else acc k := by
  intro l
  induction l with
  | nil => intro acc k; simp
  | cons f t ih =>
    intro acc k
    rw [List.foldl_cons, ih]
    by_cases hk : k = f
    · subst hk
      cases hv : cf3.get k with
      | none => simp [dynTriggers, hv]
      | some v =>
        cases himm : imm k with
        | none => simp [dynTriggers, hv, himm, goInsert]
        | some w =>
          by_cases hwv : w = v
          · simp [dynTriggers, hv, himm, hwv]
          · simp [dynTriggers, hv, himm, hwv, goInsert]
    · cases hv : cf3.get f with
      | none => simp [hv, hk, List.mem_cons]
      | some v =>
        cases himm : imm f with
        | none => simp [hv, himm, goInsert, hk, List.mem_cons]
        | some w =>
          by_cases hwv : w = v
          · simp [hv, himm, hwv, hk, List.mem_cons]
          · simp [hv, himm, hwv, goInsert, hk, List.mem_cons]

theorem savedDynamicUpdate_get {V : Type} [DecidableEq V] (imm : GoMap V)
    (cf3 : Vip V) (dyn : GoMap V) (k : String) :
    savedDynamicUpdate imm cf3 dyn k
      = if k ∈ cf3.keys ∧ dynTriggers imm cf3 k then cf3.get k else dyn k :=
  savedDyn_fold_get imm cf3 cf3.keys dyn k

theorem savedStage_immutable_precedence {V : Type} [DecidableEq V]
    (imm conf1 dyn : GoMap V) (c3 : Vip V) (k : String) (sv : V)
    (hk : k ∈ c3.keys) (hv : c3.get k = some sv) :
    (vipUnmarshal (savedReplaceImmutable imm c3) conf1 k
        = match imm k with
          | some w => some w
          | none => some sv)
      ∧ (savedDynamicUpdate imm (savedReplaceImmutable imm c3) dyn k ≠ dyn k →
          imm k = none) := by
  have hkeys := savedReplaceImmutable_keys imm c3
  have hget := savedReplaceImmutable_get imm c3 k
  constructor
  · rw [vipUnmarshal_get, hkeys, hget]
    cases himm : imm k with
    | some w => simp [hk, hv]
    | none => simp [hk, hv]
  · intro hne
    cases himm : imm k with
    | none => rfl
    | some w =>
      exfalso
      apply hne
      rw [savedDynamicUpdate_get, hkeys]
      have htrig : dynTriggers imm (savedReplaceImmutable imm c3) k = false := by
        unfold dynTriggers
        rw [hget]
        simp [hk, himm]
      simp [htrig]

/-- Claim C5.  In `GetClusterConfig`, for every key of the
`saved-<cluster>` section: the unmarshalled effective configuration holds
the immutable value when the key is in the cluster immutable flag map
(the saved value having been replaced before unmarshalling) and the saved
value otherwise — so a saved value overrides the effective configuration
only for non-immutable keys — and a saved key newly enters the dynamic
flag map only when it is absent from the immutable map or its value
differs from the immutable one. -/
theorem GetClusterConfig_saved_immutable_precedence {V : Type} [DecidableEq V]
    (commandLineFlag : List String) (fistReadGet : String → Option V)
    (cf2 : Option (Vip V)) (c3 : Vip V)
    (ImmuableMap DynamicMap : GoMap V) (cluster : String) (conf : GoMap V)
    (k : String) (sv : V)
    (hcl : cluster ≠ "") (hk : k ∈ c3.keys) (hv : c3.get k = some sv) :
    ((GetClusterConfig commandLineFlag fistReadGet cf2 (some c3) ImmuableMap
          DynamicMap cluster conf true).clusterconf k
        = match (GetClusterConfig commandLineFlag fistReadGet cf2 (some c3)
              ImmuableMap DynamicMap cluster conf true).clustImmuableMap k with
          | some w => some w
          | none => some sv)
      ∧ ((GetClusterConfig commandLineFlag fistReadGet cf2 (some c3) ImmuableMap
            DynamicMap cluster conf true).clustDynamicMap k ≠ DynamicMap k →
          (GetClusterConfig commandLineFlag fistReadGet cf2 (some c3) ImmuableMap
              DynamicMap cluster conf true).clustImmuableMap k = none
            ∨ ∃ w, (GetClusterConfig commandLineFlag fistReadGet cf2 (some c3)
                  ImmuableMap DynamicMap cluster conf true).clustImmuableMap k
                = some w
              ∧ some w ≠ (GetClusterConfig commandLineFlag fistReadGet cf2
                  (some c3) ImmuableMap DynamicMap cluster conf true).clustDynamicMap k) := by
  simp only [GetClusterConfig, if_pos hcl, if_true]
  refine ⟨?_, ?_⟩
  · exact (savedStage_immutable_precedence _ _ DynamicMap c3 k sv hk hv).1
  · intro hne
    exact Or.inl
      ((savedStage_immutable_precedence _ conf DynamicMap c3 k sv hk hv).2 hne)

/-- Witness for C5: one saved key `k1` with saved value 7 while the default
immutable map pins `k1` to 5; the effective configuration keeps 5. -/
theorem GetClusterConfig_saved_immutable_precedence_witness :
    (GetClusterConfig (V := Nat) [] (fun _ => none) none
        (some { keys := ["k1"], get := fun q => if q = "k1" then some 7 else none })
        (fun q => if q = "k1" then some 5 else none) (fun _ => none)
        "c1" (fun _ => none) true).clusterconf "k1" = some 5 := by
  have h := GetClusterConfig_saved_immutable_precedence (V := Nat)
    [] (fun _ => none) none
    { keys := ["k1"], get := fun q => if q = "k1" then some 7 else none }
    (fun q => if q = "k1" then some 5 else none) (fun _ => none)
    "c1" (fun _ => none) "k1" 7 (by decide) (by decide) (by decide)
  exact h.1.trans (by decide)

end RepMan
